import Mathlib

/-!
Verification development for the rent-search harvesting pipeline
(backend/app/db.py and backend/app/scraper.py).

The Python source is shallowly embedded: each field parser becomes a total
Lean function on `Option String` (operating on the underlying character
list), the persistent store becomes an explicit record of listing and
price-snapshot rows, and the reconciler `save_property_data` becomes a pure
state transformer.  Regular-expression searches used by the parsers
(`re.search` / `re.match`) are embedded by hand with the same semantics:
leftmost match position, greedy character-class runs with backtracking
before a literal marker.
-/

namespace RentSearch

/-- Character class `[0-9,]` used by `extract_price`. -/
def clsPriceC (c : Char) : Bool := c.isDigit || c == ','

/-- Character class `[0-9.]` used by `extract_gross` and `extract_area`. -/
def clsFloatC (c : Char) : Bool := c.isDigit || c == '.'

/-- Whitespace characters matched by the regex class rendered as backslash-s
(ASCII whitespace plus the ideographic space). -/
def isPyWs (c : Char) : Bool :=
  c == ' ' || c == '\t' || c == '\n' || c == '\r' || c == '\u000b' || c == '\u000c' || c == '　'

/-- Numeric value of a digit string, as Python `int` on a digits-only string. -/
def natOfDigits (cs : List Char) : Nat :=
  cs.foldl (fun n c => n * 10 + (c.toNat - 48)) 0

/-- Backtracking step of a greedy class-run followed by a literal marker:
try run lengths `k, k-1, ..., 1` and return the first (longest) run of
`cs` whose remainder starts with `marker`. -/
def tryLens (cs : List Char) (marker : List Char) : Nat → Option (List Char)
  | 0 => none
  | k + 1 =>
    if marker.isPrefixOf (cs.drop (k + 1)) then some (cs.take (k + 1))
    else tryLens cs marker k

/-- Match, anchored at the start of `cs`: literal `lit`, then (optionally) a
run of whitespace, then a non-empty greedy run of `cls` characters, then the
literal `marker`.  Returns the captured class run. -/
def matchLitClsMarker (lit : List Char) (allowWs : Bool) (cls : Char → Bool)
    (marker : List Char) (cs : List Char) : Option (List Char) :=
  if lit.isPrefixOf cs then
    let t1 := cs.drop lit.length
    let t2 := if allowWs then t1.dropWhile isPyWs else t1
    tryLens t2 marker ((t2.takeWhile cls).length)
  else none

/-- Model of `re.search` for the pattern `lit [ws*] (cls+) marker`: scan positions left
to right and return the captured group of the leftmost match. -/
def searchPat (lit : List Char) (allowWs : Bool) (cls : Char → Bool)
    (marker : List Char) : List Char → Option (List Char)
  | [] => none
  | c :: rest =>
    match matchLitClsMarker lit allowWs cls marker (c :: rest) with
    | some g => some g
    | none => searchPat lit allowWs cls marker rest

/-- Model of `re.search` for the pattern `lit (digit+)`: the leftmost occurrence of the
literal followed by at least one digit; returns the greedy digit run. -/
def searchLitDigits (lit : List Char) : List Char → Option (List Char)
  | [] => none
  | c :: rest =>
    if lit.isPrefixOf (c :: rest) then
      let run := ((c :: rest).drop lit.length).takeWhile Char.isDigit
      if run.isEmpty then searchLitDigits lit rest else some run
    else searchLitDigits lit rest

/-- Embedding of `extract_listing_id` (db.py:71): digits immediately following the literal
`id` anywhere in the detail URL; `None` input (a missing key) raises inside
the guarded block and is caught, yielding `None`. -/
def extract_listing_id (detail_url : Option String) : Option Nat :=
  match detail_url with
  | none => none
  | some s =>
    match searchLitDigits "id".data s.data with
    | some run => some (natOfDigits run)
    | none => none

/-- A calendar date as produced by Python `datetime.date`. -/
structure PyDate where
  year : Nat
  month : Nat
  day : Nat
deriving DecidableEq, Repr

/-- Gregorian leap year, as Python `calendar`/`datetime` use it. -/
def isLeapYear (y : Nat) : Bool := (y % 4 == 0) && (y % 100 != 0 || y % 400 == 0)

/-- Number of days of month `m` in year `y` (Python `datetime.date` validity). -/
def daysInMonth (y m : Nat) : Nat :=
  if m == 2 then (if isLeapYear y then 29 else 28)
  else if m == 4 || m == 6 || m == 9 || m == 11 then 30 else 31

/-- Does the list start with a digit? -/
def digitsStart : List Char → Bool
  | c :: _ => c.isDigit
  | [] => false

/-- Tail of the guard regex for the slash date form: one or two digits, a
slash, then at least one digit (greedy `\d{1,2}` with backtracking before
the literal slash). -/
def seg12Slash : List Char → Bool
  | a :: '/' :: u => a.isDigit && digitsStart u
  | a :: b :: '/' :: u => a.isDigit && b.isDigit && digitsStart u
  | _ => false

/-- The guard `re.match` in `parse_date` (db.py:88): the string starts with
four digits, a slash, one-or-two digits, a slash, one-or-two digits. -/
def slashGuard : List Char → Bool
  | a :: b :: c :: d :: '/' :: rest =>
    a.isDigit && b.isDigit && c.isDigit && d.isDigit && seg12Slash rest
  | _ => false

/-- Split a character list on the slash character (every occurrence). -/
def splitSlash : List Char → List (List Char)
  | [] => [[]]
  | '/' :: rest => [] :: splitSlash rest
  | c :: rest =>
    match splitSlash rest with
    | [] => [[c]]
    | g :: gs => (c :: g) :: gs

/-- Model of `datetime.strptime` with format year-slash-month-slash-day: the whole string must be four
digits, a slash, a one-or-two digit month in 1..12, a slash, a one-or-two
digit day in 1..31, and the triple must be a valid calendar date with a
positive year; any failure raises, which `parse_date` catches into `None`. -/
def strptimeYMD (cs : List Char) : Option PyDate :=
  match splitSlash cs with
  | [ys, ms, ds] =>
    if ys.length = 4 ∧ ys.all Char.isDigit = true
        ∧ 1 ≤ ms.length ∧ ms.length ≤ 2 ∧ ms.all Char.isDigit = true
        ∧ 1 ≤ ds.length ∧ ds.length ≤ 2 ∧ ds.all Char.isDigit = true then
      let y := natOfDigits ys
      let m := natOfDigits ms
      let d := natOfDigits ds
      if 1 ≤ y ∧ 1 ≤ m ∧ m ≤ 12 ∧ 1 ≤ d ∧ d ≤ daysInMonth y m then
        some ⟨y, m, d⟩
      else none
    else none
  | _ => none

/-- The year-month `re.match` in `parse_date` (db.py:91): a prefix of four
digits, the year kanji, one-or-two digits, the month kanji; returns the two
captured numbers. -/
def yearMonthMD : List Char → Option (Nat × Nat)
  | a :: b :: c :: d :: '年' :: rest =>
    if a.isDigit && b.isDigit && c.isDigit && d.isDigit then
      match rest with
      | e :: '月' :: _ =>
        if e.isDigit then some (natOfDigits [a, b, c, d], natOfDigits [e]) else none
      | e :: f :: '月' :: _ =>
        if e.isDigit && f.isDigit then some (natOfDigits [a, b, c, d], natOfDigits [e, f])
        else none
      | _ => none
    else none
  | _ => none

/-- Embedding of `parse_date` (db.py:82): falsy input gives `None`; a string matching the
slash guard is parsed strictly as `%Y/%m/%d` (an exception inside gives
`None`, the year-month branch is not reached); otherwise the year-month
prefix form yields the first of that month when it denotes a valid date. -/
def parse_date (date_str : Option String) : Option PyDate :=
  match date_str with
  | none => none
  | some s =>
    if s.data.isEmpty then none
    else if slashGuard s.data then strptimeYMD s.data
    else
      match yearMonthMD s.data with
      | some (y, m) => if 1 ≤ y ∧ 1 ≤ m ∧ m ≤ 12 then some ⟨y, m, 1⟩ else none
      | none => none

/-- Embedding of `extract_price` (db.py:102): digits-and-commas immediately preceding the
ten-thousand-yen marker; commas are stripped before `int`, and a group of
commas only makes `int` raise, caught into `None`. -/
def extract_price (price_str : Option String) : Option Nat :=
  match price_str with
  | none => none
  | some s =>
    if s.data.isEmpty then none
    else
      match searchPat [] false clsPriceC "万円".data s.data with
      | some g =>
        let digits := g.filter (· != ',')
        if digits.isEmpty then none else some (natOfDigits digits)
      | none => none

/-- Python `float` on a `[0-9.]+` group: succeeds when the group holds at
most one dot and at least one digit; value is the decimal it denotes. -/
def pyFloatOfGroup (cs : List Char) : Option ℚ :=
  if cs.count '.' ≤ 1 ∧ cs.any Char.isDigit = true then
    let ip := cs.takeWhile (· != '.')
    let fp := (cs.dropWhile (· != '.')).drop 1
    some ((natOfDigits ip : ℚ) + (natOfDigits fp : ℚ) / ((10 : ℚ) ^ fp.length))
  else none

/-- Embedding of `extract_gross` (db.py:117): digits-and-dots immediately preceding the
percent marker, converted by `float`; a malformed group raises and is caught
into `None`. -/
def extract_gross (gross_str : Option String) : Option ℚ :=
  match gross_str with
  | none => none
  | some s =>
    if s.data.isEmpty then none
    else
      match searchPat [] false clsFloatC ['%'] s.data with
      | some g => pyFloatOfGroup g
      | none => none

/-- Embedding of `extract_floors` (db.py:131): digits immediately preceding the storied
marker. -/
def extract_floors (floors_str : Option String) : Option Nat :=
  match floors_str with
  | none => none
  | some s =>
    if s.data.isEmpty then none
    else
      match searchPat [] false Char.isDigit "階建".data s.data with
      | some g => some (natOfDigits g)
      | none => none

/-- Python `int(float(x))` on a non-negative decimal: truncate to whole units. -/
def truncQ (q : ℚ) : Nat := q.floor.toNat

/-- Embedding of `extract_area` (db.py:145): two independently labeled numeric substrings
(building, land), each truncated to whole square meters.  A conversion
failure raises and the shared handler returns `(None, None)`, discarding an
already-computed building value. -/
def extract_area (area_str : Option String) : Option Nat × Option Nat :=
  match area_str with
  | none => (none, none)
  | some s =>
    if s.data.isEmpty then (none, none)
    else
      let bres : Option (Option Nat) :=
        match searchPat "建物".data false clsFloatC ['㎡'] s.data with
        | none => some none
        | some g =>
          match pyFloatOfGroup g with
          | none => none
          | some q => some (some (truncQ q))
      match bres with
      | none => (none, none)
      | some ba =>
        match searchPat "土地".data true clsFloatC ['㎡'] s.data with
        | none => (ba, none)
        | some g =>
          match pyFloatOfGroup g with
          | none => (none, none)
          | some q => (ba, some (truncQ q))

/-- A raw record as produced by the extractor: the Python dict of named
string fields, embedded as an association list (keys in insertion order). -/
abbrev RawDict := List (String × Option String)

/-- Python `dict.get(k)`: the stored value, or `None` when the key is
missing (a stored `None` and a missing key are indistinguishable here,
exactly as every use site treats them). -/
def rget (d : RawDict) (k : String) : Option String :=
  match d.lookup k with
  | some v => v
  | none => none

/-- A row of the `properties` table (db.py:34). -/
structure PListing where
  pk : Nat
  listing_id : Nat
  address : Option String
  pub_date : Option PyDate
  access : Option String
  structure_ : Option String
  land_area : Option Nat
  building_area : Option Nat
  build_at : Option PyDate
  floors : Option Nat
  detail_url : Option String
  scraped_at : Nat
  closed_at : Option PyDate := none
deriving DecidableEq, Repr

/-- A row of the `price_history` table (db.py:54). -/
structure PSnapshot where
  pk : Nat
  property_id : Nat
  price : Nat
  gross : Option ℚ
  scraped_at : Nat
deriving DecidableEq, Repr

/-- The persistent store: the two tables plus the autoincrement counters.
Timestamps (`datetime.now()`) are supplied by the caller as a `now`
argument to each operation. -/
structure DB where
  listings : List PListing
  snapshots : List PSnapshot
  next_listing_pk : Nat
  next_snapshot_pk : Nat
deriving DecidableEq, Repr

/-- The query at db.py:204: the price-history row of the given property with
the greatest observation timestamp (`order_by(scraped_at.desc()).first()`). -/
def latestSnapshot (db : DB) (pid : Nat) : Option PSnapshot :=
  (db.snapshots.filter (fun s => s.property_id == pid)).foldl
    (fun acc s =>
      match acc with
      | none => some s
      | some a => if a.scraped_at < s.scraped_at then some s else acc) none

/-- All typed fields parsed from a raw record (db.py:180-185). -/
structure ParsedFields where
  pub_date : Option PyDate
  build_at : Option PyDate
  price : Option Nat
  gross : Option ℚ
  floors : Option Nat
  building_area : Option Nat
  land_area : Option Nat
deriving DecidableEq, Repr

/-- db.py:180-185: apply the field parsers to the record. -/
def parseFields (r : RawDict) : ParsedFields :=
  { pub_date := parse_date (rget r "pub_date")
    build_at := parse_date (rget r "build_at")
    price := extract_price (rget r "price")
    gross := extract_gross (rget r "gross")
    floors := extract_floors (rget r "stories")
    building_area := (extract_area (rget r "square")).1
    land_area := (extract_area (rget r "square")).2 }

/-- Python truthiness of an optional integer: present and non-zero. -/
def natTruthy (o : Option Nat) : Bool :=
  match o with
  | some n => n != 0
  | none => false

/-- db.py:189-202: the in-place mutation of an existing listing row.
Free-text descriptors are overwritten unconditionally; date, floor-count
and area fields only when the new value is truthy. -/
def updatedListing (r : RawDict) (f : ParsedFields) (ex : PListing) : PListing :=
  { ex with
    address := rget r "place"
    access := rget r "access"
    structure_ := rget r "structure"
    pub_date := if f.pub_date.isSome then f.pub_date else ex.pub_date
    build_at := if f.build_at.isSome then f.build_at else ex.build_at
    floors := if natTruthy f.floors then f.floors else ex.floors
    building_area := if natTruthy f.building_area then f.building_area else ex.building_area
    land_area := if natTruthy f.land_area then f.land_area else ex.land_area }

/-- db.py:208-211: `price_changed = latest_price and ((price and price !=
latest_price.price) or (gross and gross != latest_price.gross))`, with
Python truthiness on `price` and `gross`. -/
def priceChanged (price : Option Nat) (gross : Option ℚ) (latest : Option PSnapshot) : Bool :=
  match latest with
  | none => false
  | some lp =>
    (match price with
      | some pv => decide (pv ≠ 0) && decide (pv ≠ lp.price)
      | none => false) ||
    (match gross with
      | some g => decide (g ≠ 0) && decide (some g ≠ lp.gross)
      | none => false)

/-- A freshly inserted price-history row (db.py:214-219 and 241-246);
price defaults to 0 when absent. -/
def newSnapshot (pk pid : Nat) (price : Option Nat) (gross : Option ℚ) (now : Nat) : PSnapshot :=
  ⟨pk, pid, price.getD 0, gross, now⟩

/-- A freshly inserted listing row (db.py:224-236). -/
def newListingRow (r : RawDict) (f : ParsedFields) (pk lid now : Nat) : PListing :=
  { pk := pk
    listing_id := lid
    address := rget r "place"
    pub_date := f.pub_date
    access := rget r "access"
    structure_ := rget r "structure"
    land_area := f.land_area
    building_area := f.building_area
    build_at := f.build_at
    floors := f.floors
    detail_url := rget r "detail_url"
    scraped_at := now
    closed_at := none }

/-- Embedding of `save_property_data` (db.py:170): reconcile one raw record into the
store.  A record with no derivable (or falsy) listing id changes nothing;
otherwise the listing is updated in place or created, and a price-history
row is appended according to the change-detection rule. -/
def save_property_data (r : RawDict) (now : Nat) (db : DB) : DB :=
  match extract_listing_id (rget r "detail_url") with
  | none => db
  | some lid =>
    if lid = 0 then db
    else
      let f := parseFields r
      match db.listings.find? (fun p => p.listing_id == lid) with
      | some ex =>
        let ex' := updatedListing r f ex
        let latest := latestSnapshot db ex.pk
        let doAppend := priceChanged f.price f.gross latest || latest.isNone
        { db with
          listings := db.listings.map (fun p => if p.pk == ex.pk then ex' else p)
          snapshots :=
            if doAppend then
              db.snapshots ++ [newSnapshot db.next_snapshot_pk ex.pk f.price f.gross now]
            else db.snapshots
          next_snapshot_pk :=
            if doAppend then db.next_snapshot_pk + 1 else db.next_snapshot_pk }
      | none =>
        let nl := newListingRow r f db.next_listing_pk lid now
        { listings := db.listings ++ [nl]
          snapshots :=
            if f.price.isSome then
              db.snapshots ++
                [newSnapshot db.next_snapshot_pk db.next_listing_pk f.price f.gross now]
            else db.snapshots
          next_listing_pk := db.next_listing_pk + 1
          next_snapshot_pk :=
            if f.price.isSome then db.next_snapshot_pk + 1 else db.next_snapshot_pk }

/-- A pending session mutation (`session.add` / attribute assignment on a
loaded row) awaiting `session.commit()`. -/
inductive DBChange
  | updListing (pk : Nat) (l : PListing)
  | insListing (l : PListing)
  | insSnapshot (s : PSnapshot)
deriving DecidableEq, Repr

/-- Apply one pending mutation to the store (what `commit` does per change). -/
def applyChange (db : DB) (c : DBChange) : DB :=
  match c with
  | .updListing pk l =>
    { db with listings := db.listings.map (fun p => if p.pk == pk then l else p) }
  | .insListing l =>
    { db with listings := db.listings ++ [l], next_listing_pk := db.next_listing_pk + 1 }
  | .insSnapshot s =>
    { db with snapshots := db.snapshots ++ [s], next_snapshot_pk := db.next_snapshot_pk + 1 }

/-- The pending-change list the session holds at the `session.commit()`
call of db.py:251 (reads of the store happen against the pre-transaction
state; nothing is visible until commit). -/
def save_pending (r : RawDict) (now : Nat) (db : DB) : List DBChange :=
  match extract_listing_id (rget r "detail_url") with
  | none => []
  | some lid =>
    if lid = 0 then []
    else
      let f := parseFields r
      match db.listings.find? (fun p => p.listing_id == lid) with
      | some ex =>
        let latest := latestSnapshot db ex.pk
        let doAppend := priceChanged f.price f.gross latest || latest.isNone
        .updListing ex.pk (updatedListing r f ex) ::
          (if doAppend then
            [.insSnapshot (newSnapshot db.next_snapshot_pk ex.pk f.price f.gross now)]
          else [])
      | none =>
        .insListing (newListingRow r f db.next_listing_pk lid now) ::
          (if f.price.isSome then
            [.insSnapshot (newSnapshot db.next_snapshot_pk db.next_listing_pk f.price f.gross now)]
          else [])

/-- Variant of `save_property_data` with the transaction boundary explicit
(db.py:251-256): when the commit succeeds the pending changes are applied
as one unit; when any step fails, `session.rollback()` discards them all
and the call returns normally with the store untouched. -/
def save_property_data_tx (r : RawDict) (now : Nat) (db : DB) (commit_ok : Bool) : DB :=
  if commit_ok then (save_pending r now db).foldl applyChange db else db

/-- Python `str.strip()`: drop leading and trailing whitespace. -/
def pyStrip (s : String) : String :=
  ⟨((s.data.dropWhile isPyWs).reverse.dropWhile isPyWs).reverse⟩

/-- Simplified stand-in for the library function `urllib.parse.urljoin`
(scraper.py:202 resolves a relative href against the page URL).  No claim
depends on the value this returns, only on the key it is stored under. -/
def urljoinModel (base href : String) : String :=
  if "http".data.isPrefixOf href.data then href else base ++ href

/-- One listing-fragment container (`div.propertyBlock`) as the extractor
reads it: the promotional flag (`.Ad__pr`), the texts of the fixed
sub-elements when present, the detail link href, and — when the contents
table exists — the texts of the `span` elements from the table onward in
document order (`findNext` on the last one leaves the modelled sequence,
which in the source raises and aborts the extraction). -/
structure Block where
  is_pr : Bool
  update_text : Option String
  price_text : Option String
  gross_text : Option String
  href : Option String
  detail_spans : Option (List String)
deriving DecidableEq, Repr

/-- The fixed key vocabulary of a raw record (scraper.py:172-184). -/
def KEYS11 : List String :=
  ["pub_date", "price", "gross", "build_at", "structure", "place",
   "access", "stories", "doors", "square", "detail_url"]

/-- The dict literal initializing every extracted record (scraper.py:172). -/
def initRecord : RawDict :=
  [("pub_date", none), ("price", none), ("gross", none), ("build_at", none),
   ("structure", none), ("place", none), ("access", none), ("stories", none),
   ("doors", none), ("square", none), ("detail_url", none)]

/-- Python dict assignment `d[k] = v`: overwrite the existing binding, or
append a new one when the key is absent. -/
def setKey : RawDict → String → Option String → RawDict
  | [], k, v => [(k, v)]
  | (k', v') :: rest, k, v =>
    if k' = k then (k', v) :: rest else (k', v') :: setKey rest k v

/-- Substring containment, Python's `pat in text`. -/
def containsSub (pat : List Char) : List Char → Bool
  | [] => pat.isEmpty
  | c :: rest => pat.isPrefixOf (c :: rest) || containsSub pat rest

/-- The `elif` chain of scraper.py:209-243: the record key a label-bearing
span row writes to, determined by the first label substring it contains. -/
def rowKey (t : String) : Option String :=
  if containsSub "築年月".data t.data then some "build_at"
  else if containsSub "建物構造".data t.data then some "structure"
  else if containsSub "所在地".data t.data then some "place"
  else if containsSub "交通".data t.data then some "access"
  else if containsSub "階数".data t.data then some "stories"
  else if containsSub "総戸数".data t.data then some "doors"
  else if containsSub "面積".data t.data then some "square"
  else none

/-- The row loop of scraper.py:207-243: each label row reads the next span
as its value; a label on the final span makes `findNext` return `None`
whose `.text` raises, aborting the whole extraction (`none`). -/
def scanRows (d : RawDict) : List String → Option RawDict
  | [] => some d
  | t :: rest =>
    match rowKey t with
    | none => scanRows d rest
    | some k =>
      match rest with
      | [] => none
      | v :: _ => scanRows (setKey d k (some (pyStrip v))) rest

/-- Store a stripped element text under a key when the element exists
(scraper.py:186-196). -/
def applyOptField (d : RawDict) (k : String) (t : Option String) : RawDict :=
  match t with
  | some s => setKey d k (some (pyStrip s))
  | none => d

/-- Store the resolved detail link when the href exists (scraper.py:198-202). -/
def applyHref (d : RawDict) (base : String) (h : Option String) : RawDict :=
  match h with
  | some href => setKey d "detail_url" (some (urljoinModel base href))
  | none => d

/-- Embedding of `extract_property_data` (scraper.py:160): direct fields, the resolved
link, then the labeled rows; any raised error yields `None`. -/
def extract_property_data (b : Block) (base_url : String) : Option RawDict :=
  let d4 :=
    applyHref
      (applyOptField
        (applyOptField
          (applyOptField initRecord "pub_date" b.update_text)
          "price" b.price_text)
        "gross" b.gross_text)
      base_url b.href
  match b.detail_spans with
  | none => some d4
  | some rows => scanRows d4 rows

/-- Outcome of one request to the target URL: a transport-level exception,
or a response with its status, block-marker presence, and the listing
fragments found on the page. -/
inductive TransportResult
  | exn
  | resp (status : Nat) (blocked : Bool) (blocks : List Block)
deriving DecidableEq, Repr

/-- The per-fragment loop of scraper.py:121-128: skip promotional blocks,
extract each remaining one, keep truthy (non-`None`, non-empty) records. -/
def extractFromBlocks (blocks : List Block) (url : String) : List RawDict :=
  blocks.foldl (fun acc b =>
    if b.is_pr then acc
    else
      match extract_property_data b url with
      | some d => if d.isEmpty then acc else acc ++ [d]
      | none => acc) []

/-- Classification of one attempt (scraper.py:101-142): a transport
exception, a non-success status, the block marker, or zero extracted
records all count as a failed attempt. -/
def attemptFails (url : String) (t : TransportResult) : Bool :=
  match t with
  | .exn => true
  | .resp status blocked blocks =>
    !(status == 200) || blocked || (extractFromBlocks blocks url).isEmpty

/-- The retry loop of scraper.py:51-142, with the transport injected as a
function of the attempt index.  Returns the extracted records, the final
retry count, and how many times the target URL was requested.  The
warm-up homepage request (whose failure is ignored) and the backoff sleep
are not modelled. -/
def scrape_loop (transport : Nat → TransportResult) (url : String) :
    Nat → Nat → Nat → List RawDict × Nat × Nat
  | 0, k, calls => ([], k, calls)
  | rem + 1, k, calls =>
    match transport k with
    | .exn => scrape_loop transport url rem (k + 1) (calls + 1)
    | .resp status blocked blocks =>
      if status == 200 then
        if blocked then scrape_loop transport url rem (k + 1) (calls + 1)
        else
          if (extractFromBlocks blocks url).isEmpty then
            scrape_loop transport url rem (k + 1) (calls + 1)
          else (extractFromBlocks blocks url, k, calls + 1)
      else scrape_loop transport url rem (k + 1) (calls + 1)

/-- Two-digit zero-padded rendering, as the Python format spec 02d gives. -/
def pad2 (n : Nat) : String := if n < 10 then "0" ++ toString n else toString n

/-- The structure vocabulary `random.choice` draws from (scraper.py:267). -/
def mockStructures : List String := ["RC造", "鉄骨造", "木造"]

/-- One synthesized record (scraper.py:262-273).  `c1..c4` are the raw
draws of the random source consumed by `random.choice` and the three
`random.randint` calls, reduced to the documented ranges.  The dict
literal has no `access` key, exactly as in the source. -/
def mockRecord (i : Nat) (c1 c2 c3 c4 : Nat) : RawDict :=
  [("pub_date", some ("2025/05/" ++ pad2 i)),
   ("price", some (toString (i * 50) ++ "万円")),
   ("gross", some (toString ((50 + i) / 10) ++ "." ++ toString ((50 + i) % 10) ++ "%")),
   ("build_at", some ("2010年" ++ toString i ++ "月")),
   ("structure", some (mockStructures.getD (c1 % 3) "RC造")),
   ("place", some ("大阪府大阪市中央区" ++ toString i ++ "丁目" ++ toString i ++ "-" ++ toString i)),
   ("stories", some (toString (2 + c2 % 9) ++ "階建")),
   ("doors", some (toString (5 + c3 % 46) ++ "戸")),
   ("square", some (toString (20 + c4 % 81) ++ "㎡")),
   ("detail_url", some ("https://www.rakumachi.jp/syuuekibukken/detail/id" ++ toString (100000 + i) ++ "/"))]

/-- Embedding of `create_mock_properties` (scraper.py:251): ten records for `i` in
1..10, consuming four random draws each, in construction order. -/
def create_mock_properties (rand : Nat → Nat) : List RawDict :=
  (List.range 10).map (fun j =>
    mockRecord (j + 1) (rand (4 * j)) (rand (4 * j + 1)) (rand (4 * j + 2)) (rand (4 * j + 3)))

/-- Embedding of `scrape_rakumachi` (scraper.py:29): run the retry loop; when the retry
budget is exhausted, fall back to the cached dataset when it is truthy,
otherwise synthesize (and, in the source, persist) the mock dataset.  The
random source is injected; the diagnostic file writes are not modelled. -/
def scrape_rakumachi (transport : Nat → TransportResult) (rand : Nat → Nat)
    (url : String) (max_retries : Nat) (cached : Option (List RawDict)) : List RawDict :=
  let res := scrape_loop transport url max_retries 0 0
  let props := res.1
  let rc := res.2.1
  if rc == max_retries then
    let props1 :=
      match cached with
      | some c => if !c.isEmpty && props.isEmpty then c else props
      | none => props
    if props1.isEmpty then create_mock_properties rand else props1
  else props

/-- Claim C7: every field parser is total — on absent input (`None`) and on
malformed text each parser returns the absent value rather than raising.
The embedded parsers are total Lean functions (they are defined on every
input), and this theorem checks the absent-result behaviour on the absent
input and on representative malformed inputs for all six parsers. -/
theorem parsers_total_absent_malformed :
    extract_listing_id none = none ∧ parse_date none = none ∧
    extract_price none = none ∧ extract_gross none = none ∧
    extract_floors none = none ∧ extract_area none = (none, none) ∧
    extract_listing_id (some "https://example.test/identifier/") = none ∧
    parse_date (some "garbage") = none ∧
    extract_price (some "abc") = none ∧
    extract_gross (some "abc") = none ∧
    extract_floors (some "abc") = none ∧
    extract_area (some "abc") = (none, none) := by
  decide

/-- Claim C8: `parse_date` maps "2024/3/5" to 2024-03-05, maps the
year-month form "2024年3月" to 2024-03-01 (day defaulted to 1), and maps a
string matching neither form to the absent value. -/
theorem parse_date_c8_examples :
    parse_date (some "2024/3/5") = some ⟨2024, 3, 5⟩ ∧
    parse_date (some "2024年3月") = some ⟨2024, 3, 1⟩ ∧
    parse_date (some "garbage") = none := by
  decide

/-- Searching with `find?` skips a prefix in which nothing matches. -/
theorem find?_append_of_none {α : Type} (l₁ l₂ : List α) (p : α → Bool)
    (h : l₁.find? p = none) : (l₁ ++ l₂).find? p = l₂.find? p := by
  induction l₁ with
  | nil => rfl
  | cons a t ih =>
    cases hpa : p a with
    | true =>
      rw [List.find?_cons_of_pos _ hpa] at h
      exact absurd h (by simp)
    | false =>
      have h' : t.find? p = none := by
        rwa [List.find?_cons_of_neg _ (by simp [hpa])] at h
      rw [List.cons_append, List.find?_cons_of_neg _ (by simp [hpa])]
      exact ih h'

/-- A filter by a predicate false on every element is empty. -/
theorem filter_eq_nil_of_forall {α : Type} (p : α → Bool) (l : List α)
    (h : ∀ a ∈ l, p a = false) : l.filter p = [] := by
  induction l with
  | nil => rfl
  | cons a t ih =>
    rw [List.filter_cons]
    simp [h a (List.mem_cons_self a t),
      ih (fun x hx => h x (List.mem_cons_of_mem _ hx))]

/-- Replacing, by primary key, the row that `find?` located with a row that
still satisfies the search predicate makes `find?` return the replacement,
provided primary keys are unique. -/
theorem find?_map_update (l : List PListing) (pred : PListing → Bool) (ex ex' : PListing)
    (hnd : (l.map (fun p => p.pk)).Nodup)
    (hfind : l.find? pred = some ex) (hpred : pred ex' = true) :
    (l.map (fun p => if p.pk == ex.pk then ex' else p)).find? pred = some ex' := by
  induction l with
  | nil => simp at hfind
  | cons a t ih =>
    cases hpa : pred a with
    | true =>
      rw [List.find?_cons_of_pos _ hpa] at hfind
      have hae : a = ex := by injection hfind
      subst hae
      simp only [List.map_cons, beq_self_eq_true, if_true]
      exact List.find?_cons_of_pos _ hpred
    | false =>
      rw [List.find?_cons_of_neg _ (by simp [hpa])] at hfind
      have hmem : ex ∈ t := List.mem_of_find?_eq_some hfind
      rw [List.map_cons, List.nodup_cons] at hnd
      have hpk : (a.pk == ex.pk) = false := by
        have hne : a.pk ≠ ex.pk := by
          intro he
          exact hnd.1 (he ▸ List.mem_map_of_mem _ hmem)
        simpa using hne
      simp only [List.map_cons, hpk, if_false]
      rw [List.find?_cons_of_neg _ (by simp [hpa])]
      exact ih hnd.2 hfind

/-- Claim C5: a record from whose detail URL no listing id can be derived
leaves the store's row counts unchanged (db.py:175-178 returns before any
session mutation). -/
theorem save_no_listing_id_unchanged (r : RawDict) (now : Nat) (db : DB)
    (h : extract_listing_id (rget r "detail_url") = none) :
    (save_property_data r now db).listings.length = db.listings.length ∧
    (save_property_data r now db).snapshots.length = db.snapshots.length := by
  simp [save_property_data, h]

/-- A record whose detail URL holds no listing id, and a small store, used
as concrete inputs below. -/
def recNoId : RawDict := [("detail_url", some "https://example.test/detail/no-digits/")]

/-- The empty store with fresh autoincrement counters. -/
def dbEmpty : DB := ⟨[], [], 1, 1⟩

/-- Witness for C5 at a concrete record and store. -/
theorem save_no_listing_id_unchanged_w :
    (save_property_data recNoId 5 dbEmpty).listings.length = dbEmpty.listings.length ∧
    (save_property_data recNoId 5 dbEmpty).snapshots.length = dbEmpty.snapshots.length :=
  save_no_listing_id_unchanged recNoId 5 dbEmpty (by decide)

/-- Claim C6: each reconciliation commits the listing mutation and any
snapshot append atomically.  With the transaction boundary explicit, a
failed commit returns the pristine store (rollback discards every pending
change, and the call returns normally), and a successful commit applies
exactly the pending-change list, which coincides with the direct state
transformer `save_property_data`. -/
theorem save_commit_rollback_atomic (r : RawDict) (now : Nat) (db : DB) :
    save_property_data_tx r now db false = db ∧
    save_property_data_tx r now db true = save_property_data r now db := by
  refine ⟨rfl, ?_⟩
  unfold save_property_data_tx save_property_data save_pending
  cases hx : extract_listing_id (rget r "detail_url") with
  | none => rfl
  | some lid =>
    by_cases h0 : lid = 0
    · simp [h0]
    · simp only [h0, if_false, if_true]
      cases hf : db.listings.find? (fun p => p.listing_id == lid) with
      | none =>
        cases hps : (parseFields r).price.isSome with
        | true => simp [hf, hps, applyChange]
        | false => simp [hf, hps, applyChange]
      | some ex =>
        cases hda : priceChanged (parseFields r).price (parseFields r).gross
            (latestSnapshot db ex.pk) || (latestSnapshot db ex.pk).isNone with
        | true => simp [hf, hda, applyChange]
        | false => simp [hf, hda, applyChange]

/-- Claim C3: when reconciling into an existing listing, the date,
floor-count and area fields are overwritten only when the newly parsed
value is present: a record whose corresponding parse is absent leaves each
previously stored value unchanged (db.py:193-202 guards each assignment). -/
theorem save_absent_parse_preserves_fields (r : RawDict) (now : Nat) (db : DB)
    (lid : Nat) (ex : PListing)
    (hnd : (db.listings.map (fun p => p.pk)).Nodup)
    (hid : extract_listing_id (rget r "detail_url") = some lid)
    (hlid : lid ≠ 0)
    (hfind : db.listings.find? (fun p => p.listing_id == lid) = some ex) :
    ∃ ex', (save_property_data r now db).listings.find?
        (fun p => p.listing_id == lid) = some ex' ∧
      (parse_date (rget r "pub_date") = none → ex'.pub_date = ex.pub_date) ∧
      (parse_date (rget r "build_at") = none → ex'.build_at = ex.build_at) ∧
      (extract_floors (rget r "stories") = none → ex'.floors = ex.floors) ∧
      ((extract_area (rget r "square")).1 = none → ex'.building_area = ex.building_area) ∧
      ((extract_area (rget r "square")).2 = none → ex'.land_area = ex.land_area) := by
  refine ⟨updatedListing r (parseFields r) ex, ?_, ?_, ?_, ?_, ?_, ?_⟩
  · have hpredex : (fun p => p.listing_id == lid) ex = true :=
      List.find?_some (p := fun q : PListing => q.listing_id == lid) hfind
    have hpred' : (fun p => p.listing_id == lid) (updatedListing r (parseFields r) ex) = true := by
      simpa [updatedListing] using hpredex
    simp only [save_property_data, hid, hlid, if_false, hfind]
    exact find?_map_update _ _ ex _ hnd hfind hpred'
  · intro h; simp [updatedListing, parseFields, h]
  · intro h; simp [updatedListing, parseFields, h]
  · intro h; simp [updatedListing, parseFields, natTruthy, h]
  · intro h; simp [updatedListing, parseFields, natTruthy, h]
  · intro h; simp [updatedListing, parseFields, natTruthy, h]

/-- An existing listing with every overwritable field populated, for the
concrete instantiation of C3. -/
def c3Listing : PListing :=
  { pk := 1, listing_id := 9, address := some "addr", pub_date := some ⟨2024, 1, 2⟩,
    access := some "acc", structure_ := some "RC", land_area := some 80,
    building_area := some 50, build_at := some ⟨2010, 1, 1⟩, floors := some 3,
    detail_url := some "https://example.test/id9/", scraped_at := 0, closed_at := none }

/-- Store holding only `c3Listing`. -/
def c3DB : DB := ⟨[c3Listing], [], 2, 1⟩

/-- A record for listing 9 whose date, floor and area fields are absent. -/
def c3Rec : RawDict := [("detail_url", some "https://example.test/id9/")]

/-- Witness for C3 at a concrete record and store. -/
theorem save_absent_parse_preserves_fields_w :
    ∃ ex', (save_property_data c3Rec 1 c3DB).listings.find?
        (fun p => p.listing_id == 9) = some ex' ∧
      (parse_date (rget c3Rec "pub_date") = none → ex'.pub_date = c3Listing.pub_date) ∧
      (parse_date (rget c3Rec "build_at") = none → ex'.build_at = c3Listing.build_at) ∧
      (extract_floors (rget c3Rec "stories") = none → ex'.floors = c3Listing.floors) ∧
      ((extract_area (rget c3Rec "square")).1 = none →
        ex'.building_area = c3Listing.building_area) ∧
      ((extract_area (rget c3Rec "square")).2 = none →
        ex'.land_area = c3Listing.land_area) :=
  save_absent_parse_preserves_fields c3Rec 1 c3DB 9 c3Listing
    (by decide) (by decide) (by decide) (by decide)

/-- A stored listing with one snapshot at price 100, and a record for the
same listing whose parsed price is 0 — present and different from 100. -/
def c2Listing : PListing :=
  { pk := 1, listing_id := 5, address := none, pub_date := none, access := none,
    structure_ := none, land_area := none, building_area := none, build_at := none,
    floors := none, detail_url := none, scraped_at := 0, closed_at := none }

/-- The latest (and only) snapshot of `c2Listing`, at price 100. -/
def c2Snap : PSnapshot := ⟨1, 1, 100, none, 0⟩

/-- Store holding `c2Listing` with `c2Snap`. -/
def c2DB : DB := ⟨[c2Listing], [c2Snap], 2, 2⟩

/-- A record for listing 5 whose price text parses to 0. -/
def c2Rec : RawDict :=
  [("detail_url", some "https://www.rakumachi.jp/syuuekibukken/detail/id5/"),
   ("price", some "0万円")]

/-- Counterexample to C2 as stated: the newly parsed price (0) is present
and differs from the latest snapshot's price (100), yet no snapshot is
appended, because db.py:208 tests `price and price != latest_price.price`
and 0 is falsy. -/
theorem save_zero_price_not_appended :
    extract_price (rget c2Rec "price") = some 0 ∧
    latestSnapshot c2DB 1 = some c2Snap ∧
    c2Snap.price = 100 ∧
    (save_property_data c2Rec 1 c2DB).snapshots = c2DB.snapshots := by
  decide

/-- Claim C2, amended: for an existing listing with a latest snapshot, a
record whose newly parsed price is present, non-zero and different from
that snapshot's price appends exactly one new snapshot; every previously
stored snapshot is unchanged and the count grows by one. -/
theorem save_changed_price_appends_one (r : RawDict) (now lid p : Nat) (db : DB)
    (ex : PListing) (s0 : PSnapshot)
    (hid : extract_listing_id (rget r "detail_url") = some lid)
    (hlid : lid ≠ 0)
    (hfind : db.listings.find? (fun q => q.listing_id == lid) = some ex)
    (hlatest : latestSnapshot db ex.pk = some s0)
    (hp : extract_price (rget r "price") = some p)
    (hp0 : p ≠ 0) (hne : p ≠ s0.price) :
    (save_property_data r now db).snapshots =
      db.snapshots ++
        [⟨db.next_snapshot_pk, ex.pk, p, extract_gross (rget r "gross"), now⟩] ∧
    (save_property_data r now db).snapshots.length = db.snapshots.length + 1 := by
  have hda : priceChanged (some p) (extract_gross (rget r "gross"))
      (latestSnapshot db ex.pk) = true := by
    simp [priceChanged, hlatest, hp0, hne]
  constructor
  · simp [save_property_data, hid, hlid, hfind, parseFields, hp, hda, newSnapshot]
  · simp [save_property_data, hid, hlid, hfind, parseFields, hp, hda]

/-- A record for listing 5 with price text parsing to 250. -/
def c2RecB : RawDict :=
  [("detail_url", some "https://www.rakumachi.jp/syuuekibukken/detail/id5/"),
   ("price", some "250万円")]

/-- Witness for the amended C2 at a concrete record and store. -/
theorem save_changed_price_appends_one_w :
    (save_property_data c2RecB 1 c2DB).snapshots =
      c2DB.snapshots ++
        [⟨c2DB.next_snapshot_pk, c2Listing.pk, 250, extract_gross (rget c2RecB "gross"), 1⟩] ∧
    (save_property_data c2RecB 1 c2DB).snapshots.length = c2DB.snapshots.length + 1 :=
  save_changed_price_appends_one c2RecB 1 5 250 c2DB c2Listing c2Snap
    (by decide) (by decide) (by decide) (by decide) (by decide) (by decide) (by decide)

/-- The change-detection test is false when the parsed price and yield are
exactly those stored in the latest snapshot. -/
theorem priceChanged_no_diff (pv : Nat) (gross : Option ℚ) (pk pid now : Nat) :
    priceChanged (some pv) gross (some ⟨pk, pid, pv, gross, now⟩) = false := by
  unfold priceChanged
  cases gross with
  | none => simp
  | some g => simp

/-- Reconciling a record into an existing listing whose latest snapshot
already carries exactly the record's parsed price and yield appends no
snapshot: the change-detection rule finds nothing changed. -/
theorem save_existing_no_diff_no_append (r : RawDict) (now lid : Nat) (db2 : DB)
    (ex : PListing) (s0 : PSnapshot)
    (hid : extract_listing_id (rget r "detail_url") = some lid)
    (hlid : lid ≠ 0)
    (hfind : db2.listings.find? (fun q => q.listing_id == lid) = some ex)
    (hlatest : latestSnapshot db2 ex.pk = some s0)
    (hp : extract_price (rget r "price") = some s0.price)
    (hs0g : s0.gross = extract_gross (rget r "gross")) :
    (save_property_data r now db2).snapshots = db2.snapshots := by
  obtain ⟨spk, spid, sprice, sgross, sts⟩ := s0
  have hg : sgross = extract_gross (rget r "gross") := hs0g
  subst hg
  have hp' : extract_price (rget r "price") = some sprice := hp
  have hch : priceChanged (some sprice) (extract_gross (rget r "gross"))
      (some ⟨spk, spid, sprice, extract_gross (rget r "gross"), sts⟩) = false :=
    priceChanged_no_diff sprice (extract_gross (rget r "gross")) spk spid sts
  simp [save_property_data, hid, hlid, hfind, parseFields, hp', hlatest, hch]

/-- Claim C1: reconciling the same record twice, starting from a store with
no listing for its id and with a parsed price present, leaves the second
run appending nothing: the listing ends up with exactly one snapshot. -/
theorem save_same_record_twice_one_snapshot (r : RawDict) (db : DB)
    (now1 now2 lid p : Nat)
    (hwf : ∀ s ∈ db.snapshots, s.property_id < db.next_listing_pk)
    (hid : extract_listing_id (rget r "detail_url") = some lid)
    (hlid : lid ≠ 0)
    (habs : db.listings.find? (fun q => q.listing_id == lid) = none)
    (hp : extract_price (rget r "price") = some p) :
    (save_property_data r now2 (save_property_data r now1 db)).snapshots =
      (save_property_data r now1 db).snapshots ∧
    ((save_property_data r now2 (save_property_data r now1 db)).snapshots.filter
      (fun s => s.property_id == db.next_listing_pk)).length = 1 := by
  have hdb1 : save_property_data r now1 db =
      { listings := db.listings ++ [newListingRow r (parseFields r) db.next_listing_pk lid now1]
        snapshots := db.snapshots ++
          [⟨db.next_snapshot_pk, db.next_listing_pk, p, extract_gross (rget r "gross"), now1⟩]
        next_listing_pk := db.next_listing_pk + 1
        next_snapshot_pk := db.next_snapshot_pk + 1 } := by
    simp [save_property_data, hid, hlid, habs, parseFields, hp, newSnapshot]
  have hfind2' : (save_property_data r now1 db).listings.find? (fun q => q.listing_id == lid) =
      some (newListingRow r (parseFields r) db.next_listing_pk lid now1) := by
    rw [hdb1]
    show ((db.listings ++ [newListingRow r (parseFields r) db.next_listing_pk lid now1]).find?
      (fun q => q.listing_id == lid)) = _
    rw [find?_append_of_none _ _ _ habs]
    exact List.find?_cons_of_pos _ (by simp [newListingRow])
  have hfilter0 : db.snapshots.filter (fun s => s.property_id == db.next_listing_pk) = [] := by
    apply filter_eq_nil_of_forall
    intro s hs
    simpa using Nat.ne_of_lt (hwf s hs)
  have hlatest1 : latestSnapshot (save_property_data r now1 db)
      (newListingRow r (parseFields r) db.next_listing_pk lid now1).pk =
      some ⟨db.next_snapshot_pk, db.next_listing_pk, p, extract_gross (rget r "gross"), now1⟩ := by
    rw [hdb1]
    simp [latestSnapshot, List.filter_append, hfilter0, newListingRow]
  have heq : (save_property_data r now2 (save_property_data r now1 db)).snapshots =
      (save_property_data r now1 db).snapshots :=
    save_existing_no_diff_no_append r now2 lid (save_property_data r now1 db)
      (newListingRow r (parseFields r) db.next_listing_pk lid now1)
      ⟨db.next_snapshot_pk, db.next_listing_pk, p, extract_gross (rget r "gross"), now1⟩
      hid hlid hfind2' hlatest1 hp rfl
  refine ⟨heq, ?_⟩
  rw [heq, hdb1]
  simp [List.filter_append, hfilter0]

/-- A complete record for a fresh listing, used to instantiate C1. -/
def c1Rec : RawDict :=
  [("detail_url", some "https://example.test/id7/"),
   ("price", some "1,234万円"),
   ("gross", some "5.5%")]

/-- Witness for C1 at a concrete record, starting from the empty store. -/
theorem save_same_record_twice_one_snapshot_w :
    (save_property_data c1Rec 1 (save_property_data c1Rec 0 dbEmpty)).snapshots =
      (save_property_data c1Rec 0 dbEmpty).snapshots ∧
    ((save_property_data c1Rec 1 (save_property_data c1Rec 0 dbEmpty)).snapshots.filter
      (fun s => s.property_id == dbEmpty.next_listing_pk)).length = 1 :=
  save_same_record_twice_one_snapshot c1Rec dbEmpty 0 1 7 1234
    (by decide) (by decide) (by decide) (by decide) (by decide)

/-- Unfolding of the retry loop with no budget left. -/
theorem scrape_loop_zero (transport : Nat → TransportResult) (url : String)
    (k calls : Nat) : scrape_loop transport url 0 k calls = ([], k, calls) := rfl

/-- Unfolding of one iteration of the retry loop. -/
theorem scrape_loop_succ (transport : Nat → TransportResult) (url : String)
    (rem k calls : Nat) :
    scrape_loop transport url (rem + 1) k calls =
      (match transport k with
      | .exn => scrape_loop transport url rem (k + 1) (calls + 1)
      | .resp status blocked blocks =>
        if status == 200 then
          if blocked then scrape_loop transport url rem (k + 1) (calls + 1)
          else
            if (extractFromBlocks blocks url).isEmpty then
              scrape_loop transport url rem (k + 1) (calls + 1)
            else (extractFromBlocks blocks url, k, calls + 1)
        else scrape_loop transport url rem (k + 1) (calls + 1)) := rfl

/-- When every attempt fails, the retry loop makes one target request per
attempt, extracts nothing, and exits with the retry count advanced by the
whole remaining budget. -/
theorem scrape_loop_all_fail (transport : Nat → TransportResult) (url : String)
    (h : ∀ i, attemptFails url (transport i) = true) :
    ∀ rem k calls, scrape_loop transport url rem k calls = ([], k + rem, calls + rem) := by
  intro rem
  induction rem with
  | zero => intro k calls; simp [scrape_loop_zero]
  | succ n ih =>
    intro k calls
    rw [scrape_loop_succ]
    have he1 : k + 1 + n = k + (n + 1) := by omega
    have he2 : calls + 1 + n = calls + (n + 1) := by omega
    split
    · rw [ih, he1, he2]
    · split
      · split
        · rw [ih, he1, he2]
        · split
          · rw [ih, he1, he2]
          · rename_i status blocked blocks heq hs hb hne
            exfalso
            have hf := h k
            rw [heq] at hf
            simp only [attemptFails] at hf
            have hb' : blocked = false := by revert hb; cases blocked <;> simp
            have hne' : (extractFromBlocks blocks url).isEmpty = false := by
              revert hne; cases (extractFromBlocks blocks url).isEmpty <;> simp
            rw [hs, hb', hne'] at hf
            simp at hf
      · rw [ih, he1, he2]

/-- The synthesized mock dataset is never empty. -/
theorem create_mock_properties_ne_nil (rand : Nat → Nat) :
    create_mock_properties rand ≠ [] := by
  simp [create_mock_properties]

/-- Claim C4: with a transport that fails on every attempt, the fetcher
makes exactly N = max_retries target requests and returns a non-empty
fallback dataset — the cached one when it is non-empty, otherwise the
freshly synthesized mock dataset (scraper.py:144-157). -/
theorem scrape_all_fail_returns_fallback (transport : Nat → TransportResult)
    (rand : Nat → Nat) (url : String) (N : Nat) (cached : Option (List RawDict))
    (h : ∀ i, attemptFails url (transport i) = true) :
    (scrape_loop transport url N 0 0).2.2 = N ∧
    scrape_rakumachi transport rand url N cached ≠ [] ∧
    scrape_rakumachi transport rand url N cached =
      (match cached with
       | some c => if c = [] then create_mock_properties rand else c
       | none => create_mock_properties rand) := by
  have hl := scrape_loop_all_fail transport url h N 0 0
  have hres : scrape_rakumachi transport rand url N cached =
      (match cached with
       | some c => if c = [] then create_mock_properties rand else c
       | none => create_mock_properties rand) := by
    unfold scrape_rakumachi
    rw [hl]
    cases cached with
    | none => simp
    | some c =>
      by_cases hc : c = []
      · subst hc; simp
      · simp [hc]
  refine ⟨by simp [hl], ?_, hres⟩
  rw [hres]
  cases cached with
  | none => exact create_mock_properties_ne_nil rand
  | some c =>
    by_cases hc : c = []
    · subst hc
      simp only [if_pos rfl]
      exact create_mock_properties_ne_nil rand
    · simp [hc]

/-- Witness for C4: three attempts against an always-raising transport. -/
theorem scrape_all_fail_returns_fallback_w :
    (scrape_loop (fun _ => TransportResult.exn) "u" 3 0 0).2.2 = 3 ∧
    scrape_rakumachi (fun _ => TransportResult.exn) (fun _ => 0) "u" 3 none ≠ [] ∧
    scrape_rakumachi (fun _ => TransportResult.exn) (fun _ => 0) "u" 3 none =
      (match (none : Option (List RawDict)) with
       | some c => if c = [] then create_mock_properties (fun _ => 0) else c
       | none => create_mock_properties (fun _ => 0)) :=
  scrape_all_fail_returns_fallback (fun _ => TransportResult.exn) (fun _ => 0) "u" 3 none
    (fun _ => rfl)

/-- Counterexample to C9 as stated: two invocations of the mock-dataset
generator with different random sources (as `random.choice` and
`random.randint` provide across invocations) produce different lists. -/
theorem create_mock_not_invocation_independent :
    create_mock_properties (fun _ => 0) ≠ create_mock_properties (fun _ => 1) := by
  decide

/-- Claim C9, amended: the mock-dataset generator is deterministic as a
function of the random source — two invocations drawing the same random
values produce equal lists — and always yields the fixed shape of ten
records. -/
theorem create_mock_deterministic_given_rand (r1 r2 : Nat → Nat)
    (h : ∀ n, r1 n = r2 n) :
    create_mock_properties r1 = create_mock_properties r2 ∧
    (create_mock_properties r1).length = 10 := by
  have he : r1 = r2 := funext h
  subst he
  exact ⟨rfl, by simp [create_mock_properties]⟩

/-- Witness for the amended C9 at a concrete random source. -/
theorem create_mock_deterministic_given_rand_w :
    create_mock_properties (fun _ => 0) = create_mock_properties (fun _ => 0) ∧
    (create_mock_properties (fun _ => 0)).length = 10 :=
  create_mock_deterministic_given_rand (fun _ => 0) (fun _ => 0) (fun _ => rfl)

/-- Overwriting an existing key leaves the key sequence unchanged. -/
theorem setKey_keys (d : RawDict) (k : String) (v : Option String)
    (h : k ∈ d.map Prod.fst) : (setKey d k v).map Prod.fst = d.map Prod.fst := by
  induction d with
  | nil => simp at h
  | cons a t ih =>
    obtain ⟨k', v'⟩ := a
    by_cases hk : k' = k
    · simp [setKey, hk]
    · have h2 : k ∈ k' :: t.map Prod.fst := h
      have hmem : k ∈ t.map Prod.fst := by
        rcases List.mem_cons.mp h2 with h1 | h1
        · exact absurd h1.symm hk
        · exact h1
      simp [setKey, hk, ih hmem]

/-- Every key the row loop writes belongs to the fixed vocabulary. -/
theorem rowKey_mem_keys (t k : String) (h : rowKey t = some k) : k ∈ KEYS11 := by
  unfold rowKey at h
  split_ifs at h
  all_goals injection h with h2
  all_goals subst h2
  all_goals decide

/-- The row loop preserves the key sequence of the record it fills in. -/
theorem scanRows_keys : ∀ (rows : List String) (d : RawDict),
    d.map Prod.fst = KEYS11 →
    ∀ m, scanRows d rows = some m → m.map Prod.fst = KEYS11 := by
  intro rows
  induction rows with
  | nil =>
    intro d hd m hm
    obtain rfl : d = m := by simpa [scanRows] using hm
    exact hd
  | cons t rest ih =>
    intro d hd m hm
    cases hk : rowKey t with
    | none =>
      simp only [scanRows, hk] at hm
      exact ih d hd m hm
    | some k =>
      cases rest with
      | nil => simp [scanRows, hk] at hm
      | cons v vs =>
        simp only [scanRows, hk] at hm
        refine ih _ ?_ m hm
        rw [setKey_keys d k _ (by rw [hd]; exact rowKey_mem_keys t k hk)]
        exact hd

/-- Storing an optional direct field preserves the key sequence. -/
theorem applyOptField_keys (d : RawDict) (k : String) (t : Option String)
    (h : k ∈ d.map Prod.fst) : (applyOptField d k t).map Prod.fst = d.map Prod.fst := by
  cases t with
  | none => rfl
  | some s => exact setKey_keys d k _ h

/-- Storing the resolved link preserves the key sequence. -/
theorem applyHref_keys (d : RawDict) (base : String) (t : Option String)
    (h : "detail_url" ∈ d.map Prod.fst) :
    (applyHref d base t).map Prod.fst = d.map Prod.fst := by
  cases t with
  | none => rfl
  | some s => exact setKey_keys d _ _ h

/-- Every record the extractor returns carries exactly the eleven fixed
keys, in the dict-literal order. -/
theorem extract_property_data_keys (b : Block) (url : String) (m : RawDict)
    (hm : extract_property_data b url = some m) : m.map Prod.fst = KEYS11 := by
  have h1 : (applyOptField initRecord "pub_date" b.update_text).map Prod.fst = KEYS11 := by
    rw [applyOptField_keys _ _ _ (by decide)]; decide
  have h2 : (applyOptField (applyOptField initRecord "pub_date" b.update_text)
      "price" b.price_text).map Prod.fst = KEYS11 := by
    rw [applyOptField_keys _ _ _ (by rw [h1]; decide), h1]
  have h3 : (applyOptField (applyOptField (applyOptField initRecord "pub_date" b.update_text)
      "price" b.price_text) "gross" b.gross_text).map Prod.fst = KEYS11 := by
    rw [applyOptField_keys _ _ _ (by rw [h2]; decide), h2]
  have h4 : (applyHref (applyOptField (applyOptField (applyOptField initRecord "pub_date"
      b.update_text) "price" b.price_text) "gross" b.gross_text) url b.href).map Prod.fst
      = KEYS11 := by
    rw [applyHref_keys _ _ _ (by rw [h3]; decide), h3]
  cases hds : b.detail_spans with
  | none =>
    simp only [extract_property_data, hds] at hm
    obtain rfl : _ = m := by simpa using hm
    exact h4
  | some rows =>
    simp only [extract_property_data, hds] at hm
    exact scanRows_keys rows _ h4 m hm

/-- The per-fragment loop only collects records with the fixed key set. -/
theorem extractFromBlocks_keys_aux (url : String) :
    ∀ (blocks : List Block) (acc : List RawDict),
    (∀ m ∈ acc, m.map Prod.fst = KEYS11) →
    ∀ m ∈ blocks.foldl (fun acc b =>
      if b.is_pr then acc
      else
        match extract_property_data b url with
        | some d => if d.isEmpty then acc else acc ++ [d]
        | none => acc) acc,
    m.map Prod.fst = KEYS11 := by
  intro blocks
  induction blocks with
  | nil => intro acc hacc m hm; exact hacc m (by simpa using hm)
  | cons b bs ih =>
    intro acc hacc m hm
    rw [List.foldl_cons] at hm
    refine ih _ ?_ m hm
    intro m' hm'
    by_cases hpr : b.is_pr = true
    · exact hacc m' (by simpa [hpr] using hm')
    · have hpr' : b.is_pr = false := by revert hpr; cases b.is_pr <;> simp
      cases hx : extract_property_data b url with
      | none => exact hacc m' (by simpa [hpr', hx] using hm')
      | some d =>
        by_cases hde : d.isEmpty = true
        · exact hacc m' (by simpa [hpr', hx, hde] using hm')
        · have hm'' : m' ∈ acc ++ [d] := by simpa [hpr', hx, hde] using hm'
          rcases List.mem_append.mp hm'' with h1 | h1
          · exact hacc m' h1
          · have hmd : m' = d := by simpa using h1
            subst hmd
            exact extract_property_data_keys b url m' hx

/-- Records produced by a successful page extraction all have the fixed
key set. -/
theorem extractFromBlocks_keys (blocks : List Block) (url : String) :
    ∀ m ∈ extractFromBlocks blocks url, m.map Prod.fst = KEYS11 :=
  extractFromBlocks_keys_aux url blocks [] (by intro m hm; simp at hm)

/-- Every record the retry loop returns carries the fixed key set. -/
theorem scrape_loop_keys (transport : Nat → TransportResult) (url : String) :
    ∀ (rem k calls : Nat) (props : List RawDict) (rc calls' : Nat),
    scrape_loop transport url rem k calls = (props, rc, calls') →
    ∀ m ∈ props, m.map Prod.fst = KEYS11 := by
  intro rem
  induction rem with
  | zero =>
    intro k calls props rc calls' h m hm
    rw [scrape_loop_zero] at h
    obtain ⟨h1, h2, h3⟩ : ([] : List RawDict) = props ∧ k = rc ∧ calls = calls' := by
      simpa [Prod.ext_iff] using h
    rw [← h1] at hm
    simp at hm
  | succ n ih =>
    intro k calls props rc calls' h m hm
    rw [scrape_loop_succ] at h
    split at h
    · exact ih _ _ _ _ _ h m hm
    · split at h
      · split at h
        · exact ih _ _ _ _ _ h m hm
        · split at h
          · exact ih _ _ _ _ _ h m hm
          · rename_i status blocked blocks heq hs hb he
            obtain ⟨h1, h2, h3⟩ : extractFromBlocks blocks url = props ∧ k = rc ∧
                calls + 1 = calls' := by simpa [Prod.ext_iff] using h
            rw [← h1] at hm
            exact extractFromBlocks_keys blocks url m hm
      · exact ih _ _ _ _ _ h m hm

/-- Claim C10: every record the extractor returns is a mapping with exactly
the eleven keys pub_date, price, gross, build_at, structure, place, access,
stories, doors, square, detail_url, in this order — and hence every record
in the fetcher's live-scraped output has this fixed key set. -/
theorem extract_record_key_set :
    (∀ (b : Block) (url : String) (m : RawDict),
      extract_property_data b url = some m → m.map Prod.fst = KEYS11) ∧
    (∀ (transport : Nat → TransportResult) (url : String) (N : Nat)
      (props : List RawDict) (rc calls : Nat),
      scrape_loop transport url N 0 0 = (props, rc, calls) →
      ∀ m ∈ props, m.map Prod.fst = KEYS11) :=
  ⟨fun b url m hm => extract_property_data_keys b url m hm,
   fun transport url N props rc calls h m hm =>
     scrape_loop_keys transport url N 0 0 props rc calls h m hm⟩

/-- A fragment with nothing extractable, for the concrete instantiation
of C10. -/
def c10Block : Block := ⟨false, none, none, none, none, none⟩

/-- Witness for C10: the extractor on a bare fragment yields the initial
record, whose key sequence is the fixed vocabulary. -/
theorem extract_record_key_set_w :
    initRecord.map Prod.fst = KEYS11 :=
  extract_record_key_set.1 c10Block "u" initRecord rfl

end RentSearch
